import Mathlib

/-!
Verification of the frankentui e2e WebSocket session driver/recorder
(`tests/e2e/lib/ws_client.py`) against its natural-language specification.

The Python source is shallowly embedded: bytes are `List Nat` (each < 256),
`hashlib.sha256(..).hexdigest()` is implemented from FIPS 180-4 as
`sha256_hex`, the `SessionRecorder` class becomes a structure with explicit
state passing, and the async `run_session` driver becomes a deterministic
interpreter over an explicit schedule of interleaved deliveries, step
executions and injected exceptions.
-/

set_option maxRecDepth 100000

namespace WsClient

/-! ## SHA-256 (model of `hashlib.sha256(data).hexdigest()`) -/

/-- Truncation to 32 bits. -/
def m32 (n : Nat) : Nat := n % 4294967296

/-- Rotate the 32-bit value `x` right by `n` positions. -/
def rotr (n x : Nat) : Nat := m32 ((x >>> n) ||| (x <<< (32 - n)))

def shaCh (e f g : Nat) : Nat := (e &&& f) ^^^ ((4294967295 ^^^ e) &&& g)

def shaMaj (a b c : Nat) : Nat := (a &&& b) ^^^ (a &&& c) ^^^ (b &&& c)

def bigSig0 (a : Nat) : Nat := rotr 2 a ^^^ rotr 13 a ^^^ rotr 22 a

def bigSig1 (e : Nat) : Nat := rotr 6 e ^^^ rotr 11 e ^^^ rotr 25 e

def smallSig0 (x : Nat) : Nat := rotr 7 x ^^^ rotr 18 x ^^^ (x >>> 3)

def smallSig1 (x : Nat) : Nat := rotr 17 x ^^^ rotr 19 x ^^^ (x >>> 10)

/-- The 64 SHA-256 round constants (FIPS 180-4 §4.2.2), in decimal. -/
def shaK : List Nat :=
  [1116352408, 1899447441, 3049323471, 3921009573, 961987163, 1508970993,
   2453635748, 2870763221, 3624381080, 310598401, 607225278, 1426881987,
   1925078388, 2162078206, 2614888103, 3248222580, 3835390401, 4022224774,
   264347078, 604807628, 770255983, 1249150122, 1555081692, 1996064986,
   2554220882, 2821834349, 2952996808, 3210313671, 3336571891, 3584528711,
   113926993, 338241895, 666307205, 773529912, 1294757372, 1396182291,
   1695183700, 1986661051, 2177026350, 2456956037, 2730485921, 2820302411,
   3259730800, 3345764771, 3516065817, 3600352804, 4094571909, 275423344,
   430227734, 506948616, 659060556, 883997877, 958139571, 1322822218,
   1537002063, 1747873779, 1955562222, 2024104815, 2227730452, 2361852424,
   2428436474, 2756734187, 3204031479, 3329325298]

/-- Hash state: eight 32-bit words. -/
structure Sha8 where
  a : Nat
  b : Nat
  c : Nat
  d : Nat
  e : Nat
  f : Nat
  g : Nat
  h : Nat

/-- SHA-256 initial hash value (FIPS 180-4 §5.3.3), in decimal. -/
def shaInit : Sha8 :=
  ⟨1779033703, 3144134277, 1013904242, 2773480762,
   1359893119, 2600822924, 528734635, 1541459225⟩

/-- First 16 message-schedule words of a 64-byte block (big-endian). -/
def blockWords (block : List Nat) : List Nat :=
  (List.range 16).map fun i =>
    block.getD (4 * i) 0 * 16777216 + block.getD (4 * i + 1) 0 * 65536 +
    block.getD (4 * i + 2) 0 * 256 + block.getD (4 * i + 3) 0

/-- Extend 16 schedule words to 64. -/
def schedule (ws : List Nat) : List Nat :=
  (List.range 48).foldl
    (fun acc _ =>
      let n := acc.length
      acc ++ [m32 (smallSig1 (acc.getD (n - 2) 0) + acc.getD (n - 7) 0 +
                   smallSig0 (acc.getD (n - 15) 0) + acc.getD (n - 16) 0)])
    ws

/-- One SHA-256 round. -/
def shaRound (st : Sha8) (kw : Nat × Nat) : Sha8 :=
  let t1 := m32 (st.h + bigSig1 st.e + shaCh st.e st.f st.g + kw.1 + kw.2)
  let t2 := m32 (bigSig0 st.a + shaMaj st.a st.b st.c)
  ⟨m32 (t1 + t2), st.a, st.b, st.c, m32 (st.d + t1), st.e, st.f, st.g⟩

/-- Compress one 64-byte block into the running hash state. -/
def compressBlock (H : Sha8) (block : List Nat) : Sha8 :=
  let ws := schedule (blockWords block)
  let st := (List.zip shaK ws).foldl shaRound H
  ⟨m32 (H.a + st.a), m32 (H.b + st.b), m32 (H.c + st.c), m32 (H.d + st.d),
   m32 (H.e + st.e), m32 (H.f + st.f), m32 (H.g + st.g), m32 (H.h + st.h)⟩

/-- Big-endian 8-byte encoding of a 64-bit value. -/
def u64be (n : Nat) : List Nat :=
  (List.range 8).map fun i => (n >>> (56 - 8 * i)) % 256

/-- SHA-256 message padding: 0x80, zeros to 56 mod 64, 8-byte bit length. -/
def padMessage (msg : List Nat) : List Nat :=
  let z := (120 - (msg.length + 1) % 64) % 64
  msg ++ [128] ++ List.replicate z 0 ++ u64be (msg.length * 8)

/-- Split a byte list into 64-byte blocks (fuel-based, structurally recursive
so that the kernel can evaluate it). -/
def toBlocksAux : Nat → List Nat → List (List Nat)
  | 0, _ => []
  | _, [] => []
  | fuel + 1, l => l.take 64 :: toBlocksAux fuel (l.drop 64)

/-- Split a byte list into 64-byte blocks. -/
def toBlocks (l : List Nat) : List (List Nat) := toBlocksAux l.length l

def hexDigit (n : Nat) : Char :=
  if n < 10 then Char.ofNat (48 + n) else Char.ofNat (87 + n)

/-- Lowercase 8-hex-digit rendering of a 32-bit word. -/
def toHex8 (w : Nat) : List Char :=
  (List.range 8).map fun i => hexDigit ((w >>> (28 - 4 * i)) % 16)

/-- Model of `hashlib.sha256(data).hexdigest()`: lowercase-hex SHA-256 of a
byte list (source `sha256_hex`, ws_client.py lines 65-67). -/
def sha256_hex (data : List Nat) : String :=
  let H := (toBlocks (padMessage data)).foldl compressBlock shaInit
  String.mk (toHex8 H.a ++ toHex8 H.b ++ toHex8 H.c ++ toHex8 H.d ++
             toHex8 H.e ++ toHex8 H.f ++ toHex8 H.g ++ toHex8 H.h)

example : sha256_hex [] =
    "e3b0c44298fc1c149afbf4c8996fb92427ae41e4649b934ca495991b7852b855" := by
  decide

example : sha256_hex [97, 98, 99] =
    "ba7816bf8f01cfea414140de5dae2223b00361a396177a9cb410ff61f20015ad" := by
  decide

/-! ## String helpers (UTF-8 encoding, decimal and hex formatting) -/

/-- Model of Python `str.encode("utf-8")` for a single character. -/
def utf8EncodeChar (c : Char) : List Nat :=
  let n := c.toNat
  if n < 128 then [n]
  else if n < 2048 then [192 + n / 64, 128 + n % 64]
  else if n < 65536 then
    [224 + n / 4096, 128 + (n / 64) % 64, 128 + n % 64]
  else
    [240 + n / 262144, 128 + (n / 4096) % 64, 128 + (n / 64) % 64, 128 + n % 64]

/-- Model of Python `str.encode("utf-8")`: the UTF-8 bytes of a string. -/
def utf8Encode (s : String) : List Nat :=
  (s.data.map utf8EncodeChar).flatten

/-- Decimal digits of `n`, most significant first (empty for 0); fuel-based so
that the kernel can evaluate it. -/
def decDigitsAux : Nat → Nat → List Char
  | 0, _ => []
  | _, 0 => []
  | fuel + 1, n => decDigitsAux fuel (n / 10) ++ [hexDigit (n % 10)]

/-- Decimal rendering of a natural number, as Python `str`. -/
def decStr (n : Nat) : String :=
  if n = 0 then "0" else String.mk (decDigitsAux n n)

/-- Model of the Python format `f"{n:06d}"` for a non-negative value: decimal,
left-padded with zeros to at least 6 characters. -/
def fmt06 (n : Nat) : String :=
  let s := decStr n
  if s.length < 6 then String.mk (List.replicate (6 - s.length) '0') ++ s else s

/-- Lowercase hex rendering of a natural number (no leading zeros, `0` for 0);
fuel-based so that the kernel can evaluate it. -/
def hexDigitsAux : Nat → Nat → List Char
  | 0, _ => []
  | _, 0 => []
  | fuel + 1, n => hexDigitsAux fuel (n / 16) ++ [hexDigit (n % 16)]

/-- Model of the Python format `f"{n:08x}"`: lowercase hex, left-padded with
zeros to at least 8 characters. -/
def fmt08x (n : Nat) : String :=
  let s := if n = 0 then "0" else String.mk (hexDigitsAux n n)
  if s.length < 8 then String.mk (List.replicate (8 - s.length) '0') ++ s else s

/-- Python slice `s[:n]`. -/
def strTake (s : String) (n : Nat) : String := String.mk (s.data.take n)

/-! ## Environment configuration

The Python script reads ambient process state: `os.environ` (E2E_DETERMINISTIC,
E2E_TIME_STEP_MS, E2E_SEED), `git rev-parse` output and the wall clock. These
are modelled as an explicit configuration record fixed for the run. -/

structure EnvCfg where
  /-- Whether `os.environ.get("E2E_DETERMINISTIC", "1") == "1"`. -/
  deterministic : Bool
  /-- Value of `int(os.environ.get("E2E_TIME_STEP_MS", "100"))`. -/
  step_ms : Nat
  /-- Value of `int(os.environ.get("E2E_SEED", "0"))`. -/
  seed : Nat
  /-- Result of `git_sha()` (external subprocess, opaque here). -/
  git_commit : String
  /-- What `time.strftime("%Y-%m-%dT%H:%M:%S%z")` would return (opaque). -/
  wall_clock : String
  /-- What `int(time.time() * 1000)` would return (opaque). -/
  wall_ms : Nat

/-- Model of `os.environ.get("E2E_TIME_STEP_MS", "100")` followed by `int()`:
the configured time step, defaulting to 100 when the variable is absent. -/
def envStepMs (varVal : Option Nat) : Nat := varVal.getD 100

/-- Model of `make_run_id` (ws_client.py lines 58-62). -/
def make_run_id (env : EnvCfg) : String :=
  if env.deterministic then "remote-" ++ fmt08x env.seed
  else "remote-" ++ (if env.wall_ms = 0 then "0" else
    String.mk (hexDigitsAux env.wall_ms env.wall_ms))

/-! ## Events and the session recorder -/

/-- A JSON-representable value appearing in an event's type-specific fields. -/
inductive Val where
  | str (s : String)
  | int (n : Int)
  | bool (b : Bool)
deriving DecidableEq

/-- One JSONL event as built by `SessionRecorder.emit`: the fixed fields
(schema version, type, timestamp, run id, seed) plus the type-specific
fields passed by the caller, in insertion order. -/
structure Event where
  schema_version : String
  type : String
  timestamp : String
  run_id : String
  seed : Nat
  data : List (String × Val)
deriving DecidableEq

/-- State of the Python `SessionRecorder` class. The JSONL file sink is
external I/O; `events` is the in-memory list the sink mirrors line by line. -/
structure SessionRecorder where
  run_id : String
  scenario_name : String
  events : List Event
  output_chunks : List (List Nat)
  total_ws_in : Nat
  total_ws_out : Nat
  frame_idx : Nat
  checksum_chain : String
deriving DecidableEq

/-- The 64-character all-zero hex string. -/
def zeros64 : String := String.mk (List.replicate 64 '0')

/-- Model of `SessionRecorder.__init__` (ws_client.py lines 73-86). -/
def SessionRecorder.init (run_id scenario_name : String) : SessionRecorder :=
  { run_id := run_id, scenario_name := scenario_name, events := [],
    output_chunks := [], total_ws_in := 0, total_ws_out := 0,
    frame_idx := 0, checksum_chain := zeros64 }

/-- Model of `SessionRecorder._timestamp` (ws_client.py lines 149-154). -/
def SessionRecorder.tstamp (env : EnvCfg) (r : SessionRecorder) : String :=
  if env.deterministic then "T" ++ fmt06 (r.frame_idx * env.step_ms)
  else env.wall_clock

/-- The event record built by `SessionRecorder.emit` (ws_client.py lines
90-98): fixed fields first, then the caller's type-specific fields. -/
def mkEvent (env : EnvCfg) (r : SessionRecorder) (etype : String)
    (fields : List (String × Val)) : Event :=
  { schema_version := "e2e-jsonl-v1", type := etype,
    timestamp := r.tstamp env, run_id := r.run_id, seed := env.seed,
    data := fields }

/-- Model of `SessionRecorder.emit` (ws_client.py lines 88-102). -/
def SessionRecorder.emit (env : EnvCfg) (r : SessionRecorder) (etype : String)
    (data : List (String × Val)) : SessionRecorder :=
  { r with events := r.events ++ [mkEvent env r etype data] }

/-- Model of `SessionRecorder.record_output` (ws_client.py lines 104-118). -/
def SessionRecorder.record_output (env : EnvCfg) (r : SessionRecorder)
    (data : List Nat) : SessionRecorder :=
  let chunk_hash := sha256_hex data
  let chain := sha256_hex (utf8Encode (r.checksum_chain ++ chunk_hash))
  let r1 := { r with
    output_chunks := r.output_chunks ++ [data],
    total_ws_out := r.total_ws_out + data.length,
    checksum_chain := chain,
    frame_idx := r.frame_idx + 1 }
  r1.emit env "frame"
    [("frame_idx", .int r1.frame_idx),
     ("chunk_bytes", .int data.length),
     ("chunk_hash", .str ("sha256:" ++ strTake chunk_hash 16)),
     ("checksum_chain", .str ("sha256:" ++ strTake chain 16))]

/-- Model of `SessionRecorder.record_send` (ws_client.py lines 120-122). -/
def SessionRecorder.record_send (r : SessionRecorder) (data : List Nat) :
    SessionRecorder :=
  { r with total_ws_in := r.total_ws_in + data.length }

/-- Model of `SessionRecorder.full_output` (ws_client.py lines 124-126). -/
def SessionRecorder.full_output (r : SessionRecorder) : List Nat :=
  r.output_chunks.flatten

/-- Model of the summary dict (ws_client.py lines 132-142). -/
structure Summary where
  scenario : String
  ws_in_bytes : Nat
  ws_out_bytes : Nat
  frames : Nat
  output_sha256 : String
  checksum_chain : String
deriving DecidableEq

/-- Model of `SessionRecorder.summary` (ws_client.py lines 132-142). -/
def SessionRecorder.summary (r : SessionRecorder) : Summary :=
  { scenario := r.scenario_name,
    ws_in_bytes := r.total_ws_in,
    ws_out_bytes := r.total_ws_out,
    frames := r.frame_idx,
    output_sha256 := "sha256:" ++ sha256_hex r.full_output,
    checksum_chain := "sha256:" ++ r.checksum_chain }

/-- The checksum-chain recurrence exactly as the specification words it:
start from 64 hex zeros and fold `chain = H(chain || H(chunk))` over the
received chunks in arrival order. -/
def chainOfChunks (chunks : List (List Nat)) : String :=
  chunks.foldl
    (fun chain chunk => sha256_hex (utf8Encode (chain ++ sha256_hex chunk)))
    zeros64

/-! ## Recorder operation sequences

A run touches the recorder only through `record_output`, `record_send` and
`emit`; `RecOp` lists such calls so that whole-run invariants can be stated. -/

inductive RecOp where
  | out (data : List Nat)
  | send (data : List Nat)
  | ev (etype : String) (fields : List (String × Val))

def applyOp (env : EnvCfg) (r : SessionRecorder) : RecOp → SessionRecorder
  | .out d => r.record_output env d
  | .send d => r.record_send d
  | .ev t fs => r.emit env t fs

def applyOps (env : EnvCfg) (r : SessionRecorder) (ops : List RecOp) :
    SessionRecorder :=
  ops.foldl (applyOp env) r

/-- The chunks passed to `record_output` within an operation sequence. -/
def outChunks : List RecOp → List (List Nat)
  | [] => []
  | .out d :: rest => d :: outChunks rest
  | .send _ :: rest => outChunks rest
  | .ev _ _ :: rest => outChunks rest

/-- The chunks passed to `record_send` within an operation sequence. -/
def sendChunks : List RecOp → List (List Nat)
  | [] => []
  | .out _ :: rest => sendChunks rest
  | .send d :: rest => d :: sendChunks rest
  | .ev _ _ :: rest => sendChunks rest

@[simp] lemma init_frame_idx (rid sn : String) :
    (SessionRecorder.init rid sn).frame_idx = 0 := rfl

@[simp] lemma init_ws_out (rid sn : String) :
    (SessionRecorder.init rid sn).total_ws_out = 0 := rfl

@[simp] lemma init_ws_in (rid sn : String) :
    (SessionRecorder.init rid sn).total_ws_in = 0 := rfl

@[simp] lemma init_chunks (rid sn : String) :
    (SessionRecorder.init rid sn).output_chunks = [] := rfl

@[simp] lemma init_events (rid sn : String) :
    (SessionRecorder.init rid sn).events = [] := rfl

@[simp] lemma init_chain (rid sn : String) :
    (SessionRecorder.init rid sn).checksum_chain = zeros64 := rfl

@[simp] lemma record_output_frame_idx (env : EnvCfg) (r : SessionRecorder)
    (d : List Nat) :
    (r.record_output env d).frame_idx = r.frame_idx + 1 := rfl

@[simp] lemma record_output_ws_out (env : EnvCfg) (r : SessionRecorder)
    (d : List Nat) :
    (r.record_output env d).total_ws_out = r.total_ws_out + d.length := rfl

@[simp] lemma record_output_ws_in (env : EnvCfg) (r : SessionRecorder)
    (d : List Nat) :
    (r.record_output env d).total_ws_in = r.total_ws_in := rfl

@[simp] lemma record_output_chunks (env : EnvCfg) (r : SessionRecorder)
    (d : List Nat) :
    (r.record_output env d).output_chunks = r.output_chunks ++ [d] := rfl

@[simp] lemma record_output_chain (env : EnvCfg) (r : SessionRecorder)
    (d : List Nat) :
    (r.record_output env d).checksum_chain =
      sha256_hex (utf8Encode (r.checksum_chain ++ sha256_hex d)) := rfl

@[simp] lemma record_send_ws_in (r : SessionRecorder) (d : List Nat) :
    (r.record_send d).total_ws_in = r.total_ws_in + d.length := rfl

@[simp] lemma record_send_frame_idx (r : SessionRecorder) (d : List Nat) :
    (r.record_send d).frame_idx = r.frame_idx := rfl

@[simp] lemma record_send_ws_out (r : SessionRecorder) (d : List Nat) :
    (r.record_send d).total_ws_out = r.total_ws_out := rfl

@[simp] lemma record_send_chunks (r : SessionRecorder) (d : List Nat) :
    (r.record_send d).output_chunks = r.output_chunks := rfl

@[simp] lemma record_send_chain (r : SessionRecorder) (d : List Nat) :
    (r.record_send d).checksum_chain = r.checksum_chain := rfl

@[simp] lemma record_send_events (r : SessionRecorder) (d : List Nat) :
    (r.record_send d).events = r.events := rfl

@[simp] lemma emit_frame_idx (env : EnvCfg) (r : SessionRecorder) (t : String)
    (fs : List (String × Val)) : (r.emit env t fs).frame_idx = r.frame_idx :=
  rfl

@[simp] lemma emit_ws_out (env : EnvCfg) (r : SessionRecorder) (t : String)
    (fs : List (String × Val)) :
    (r.emit env t fs).total_ws_out = r.total_ws_out := rfl

@[simp] lemma emit_ws_in (env : EnvCfg) (r : SessionRecorder) (t : String)
    (fs : List (String × Val)) :
    (r.emit env t fs).total_ws_in = r.total_ws_in := rfl

@[simp] lemma emit_chunks (env : EnvCfg) (r : SessionRecorder) (t : String)
    (fs : List (String × Val)) :
    (r.emit env t fs).output_chunks = r.output_chunks := rfl

@[simp] lemma emit_chain (env : EnvCfg) (r : SessionRecorder) (t : String)
    (fs : List (String × Val)) :
    (r.emit env t fs).checksum_chain = r.checksum_chain := rfl

@[simp] lemma emit_events (env : EnvCfg) (r : SessionRecorder) (t : String)
    (fs : List (String × Val)) :
    (r.emit env t fs).events = r.events ++ [mkEvent env r t fs] := rfl

lemma record_output_events (env : EnvCfg) (r : SessionRecorder)
    (d : List Nat) :
    (r.record_output env d).events = r.events ++
      [mkEvent env
        { r with output_chunks := r.output_chunks ++ [d],
                 total_ws_out := r.total_ws_out + d.length,
                 checksum_chain :=
                   sha256_hex (utf8Encode (r.checksum_chain ++ sha256_hex d)),
                 frame_idx := r.frame_idx + 1 }
        "frame"
        [("frame_idx", .int (r.frame_idx + 1)),
         ("chunk_bytes", .int d.length),
         ("chunk_hash", .str ("sha256:" ++ strTake (sha256_hex d) 16)),
         ("checksum_chain", .str ("sha256:" ++
           strTake (sha256_hex (utf8Encode (r.checksum_chain ++ sha256_hex d)))
             16))]] := rfl

@[simp] lemma applyOps_nil (env : EnvCfg) (r : SessionRecorder) :
    applyOps env r [] = r := rfl

@[simp] lemma applyOps_cons (env : EnvCfg) (r : SessionRecorder) (op : RecOp)
    (ops : List RecOp) :
    applyOps env r (op :: ops) = applyOps env (applyOp env r op) ops := rfl

lemma applyOps_counters (env : EnvCfg) : ∀ (ops : List RecOp)
    (r : SessionRecorder),
    (applyOps env r ops).frame_idx = r.frame_idx + (outChunks ops).length ∧
    (applyOps env r ops).total_ws_out =
      r.total_ws_out + ((outChunks ops).map List.length).sum ∧
    (applyOps env r ops).total_ws_in =
      r.total_ws_in + ((sendChunks ops).map List.length).sum ∧
    (applyOps env r ops).output_chunks = r.output_chunks ++ outChunks ops := by
  intro ops
  induction ops with
  | nil => intro r; simp [outChunks, sendChunks]
  | cons op rest ih =>
    intro r
    cases op with
    | out d =>
      obtain ⟨h1, h2, h3, h4⟩ := ih (r.record_output env d)
      refine ⟨?_, ?_, ?_, ?_⟩ <;>
        simp [applyOp, outChunks, sendChunks, h1, h2, h3, h4] <;> omega
    | send d =>
      obtain ⟨h1, h2, h3, h4⟩ := ih (r.record_send d)
      refine ⟨?_, ?_, ?_, ?_⟩ <;>
        simp [applyOp, outChunks, sendChunks, h1, h2, h3, h4] <;> omega
    | ev t fs =>
      obtain ⟨h1, h2, h3, h4⟩ := ih (r.emit env t fs)
      refine ⟨?_, ?_, ?_, ?_⟩ <;>
        simp [applyOp, outChunks, sendChunks, h1, h2, h3, h4] <;> omega

lemma chain_foldl (env : EnvCfg) : ∀ (chunks : List (List Nat))
    (r : SessionRecorder),
    (chunks.foldl (fun r d => r.record_output env d) r).checksum_chain =
      chunks.foldl
        (fun chain chunk =>
          sha256_hex (utf8Encode (chain ++ sha256_hex chunk)))
        r.checksum_chain := by
  intro chunks
  induction chunks with
  | nil => intro r; rfl
  | cons c cs ih =>
    intro r
    simp only [List.foldl_cons]
    rw [ih]
    rfl

/-- **C1.** For every sequence of output chunks passed to `record_output`,
the recorder's checksum chain starts as the 64-character all-zero hex string
and, after each chunk, equals the lowercase-hex SHA-256 digest of the previous
chain string concatenated with the lowercase-hex SHA-256 digest of that chunk;
the final chain from a fresh recorder is therefore `chainOfChunks chunks`, a
function of exactly the bytes and arrival order of the chunks. -/
theorem checksum_chain_follows_spec :
    (zeros64 =
      "0000000000000000000000000000000000000000000000000000000000000000") ∧
    (∀ rid sn, (SessionRecorder.init rid sn).checksum_chain = zeros64) ∧
    (∀ env r data, (SessionRecorder.record_output env r data).checksum_chain =
        sha256_hex (utf8Encode (r.checksum_chain ++ sha256_hex data))) ∧
    (∀ env rid sn chunks,
      (chunks.foldl (fun r d => SessionRecorder.record_output env r d)
          (SessionRecorder.init rid sn)).checksum_chain =
        chainOfChunks chunks) := by
  refine ⟨by decide, fun _ _ => rfl, fun _ _ _ => rfl, fun env rid sn chunks => ?_⟩
  rw [chain_foldl]
  rfl

/-- **C5.** The frame index and output byte counter are non-decreasing under
every recorder operation; each `record_output` call increments the frame index
by exactly one and the output byte counter by exactly the chunk's length, so
after any operation sequence on a fresh recorder the frame index equals the
number of chunks passed to `record_output` and the output byte counter equals
their total length. -/
theorem counters_monotonic_and_exact :
    (∀ env r d, (SessionRecorder.record_output env r d).frame_idx =
        r.frame_idx + 1 ∧
      (SessionRecorder.record_output env r d).total_ws_out =
        r.total_ws_out + d.length) ∧
    (∀ env r op, r.frame_idx ≤ (applyOp env r op).frame_idx ∧
      r.total_ws_out ≤ (applyOp env r op).total_ws_out) ∧
    (∀ env rid sn ops,
      (applyOps env (SessionRecorder.init rid sn) ops).frame_idx =
        (outChunks ops).length ∧
      (applyOps env (SessionRecorder.init rid sn) ops).total_ws_out =
        ((outChunks ops).map List.length).sum) := by
  refine ⟨fun env r d => ⟨rfl, rfl⟩, ?_, ?_⟩
  · intro env r op
    cases op with
    | out d =>
      exact ⟨Nat.le_succ _, Nat.le_add_right _ _⟩
    | send d => exact ⟨Nat.le_refl _, Nat.le_refl _⟩
    | ev t fs => exact ⟨Nat.le_refl _, Nat.le_refl _⟩
  · intro env rid sn ops
    have h := applyOps_counters env ops (SessionRecorder.init rid sn)
    constructor
    · have h1 := h.1
      simpa using h1
    · have h2 := h.2.1
      simpa using h2

/-- **C8.** `record_send` increases the input byte counter by exactly the
chunk's length and changes nothing else: checksum chain, frame index, output
byte counter, stored output chunks and event list are all unchanged. -/
theorem record_send_only_input_counter :
    ∀ r d, (SessionRecorder.record_send r d).total_ws_in =
        r.total_ws_in + d.length ∧
      (SessionRecorder.record_send r d).checksum_chain = r.checksum_chain ∧
      (SessionRecorder.record_send r d).frame_idx = r.frame_idx ∧
      (SessionRecorder.record_send r d).total_ws_out = r.total_ws_out ∧
      (SessionRecorder.record_send r d).output_chunks = r.output_chunks ∧
      (SessionRecorder.record_send r d).events = r.events := by
  intro r d
  exact ⟨rfl, rfl, rfl, rfl, rfl, rfl⟩

/-! ## Deterministic timestamps -/

@[simp] lemma mkEvent_type (env : EnvCfg) (r : SessionRecorder) (t : String)
    (fs : List (String × Val)) : (mkEvent env r t fs).type = t := rfl

@[simp] lemma mkEvent_timestamp (env : EnvCfg) (r : SessionRecorder)
    (t : String) (fs : List (String × Val)) :
    (mkEvent env r t fs).timestamp = r.tstamp env := rfl

@[simp] lemma mkEvent_data (env : EnvCfg) (r : SessionRecorder) (t : String)
    (fs : List (String × Val)) : (mkEvent env r t fs).data = fs := rfl

/-- A placeholder event used only as the default of list lookups. -/
def dummyEvent : Event :=
  { schema_version := "", type := "", timestamp := "", run_id := "",
    seed := 0, data := [] }

/-- A deterministic-mode configuration with the default step of 100 ms. -/
def envDet : EnvCfg :=
  { deterministic := true, step_ms := 100, seed := 0,
    git_commit := "0000000", wall_clock := "1970-01-01T00:00:00+0000",
    wall_ms := 0 }

/-- A deterministic-mode configuration with E2E_TIME_STEP_MS set to 0. -/
def envZeroStep : EnvCfg :=
  { deterministic := true, step_ms := 0, seed := 0,
    git_commit := "0000000", wall_clock := "1970-01-01T00:00:00+0000",
    wall_ms := 0 }

/-- A fresh recorder advanced to frame index 3 (its other fields unused). -/
def rFrame3 : SessionRecorder :=
  { SessionRecorder.init "remote-00000000" "echo" with frame_idx := 3 }

/-- **C7.** In deterministic mode the timestamp is `T` followed by
`frame_idx * step_ms` zero-padded to 6 digits; the step defaults to 100 when
E2E_TIME_STEP_MS is absent; and the timestamp depends only on the frame index
and the configured step, never on the wall clock. -/
theorem deterministic_timestamp_formula :
    (∀ env r, env.deterministic = true →
      SessionRecorder.tstamp env r = "T" ++ fmt06 (r.frame_idx * env.step_ms)) ∧
    envStepMs none = 100 ∧
    (∀ env env' r r', env.deterministic = true → env'.deterministic = true →
      env.step_ms = env'.step_ms → r.frame_idx = r'.frame_idx →
      SessionRecorder.tstamp env r = SessionRecorder.tstamp env' r') := by
  refine ⟨?_, rfl, ?_⟩
  · intro env r h
    simp [SessionRecorder.tstamp, h]
  · intro env env' r r' h h' hs hf
    simp [SessionRecorder.tstamp, h, h', hs, hf]

/-- A copy of `envDet` observed at a different wall-clock time. -/
def envDetWall : EnvCfg :=
  { envDet with wall_clock := "2026-10-12T12:00:00+0000" }

/-- Witness for C7: a recorder at frame index 3 under the default step
produces the timestamp `T000300`, independently of the wall clock. -/
theorem deterministic_timestamp_formula_witness :
    SessionRecorder.tstamp envDet rFrame3 = "T000300" ∧
    SessionRecorder.tstamp envDet rFrame3 =
      SessionRecorder.tstamp envDetWall rFrame3 := by
  constructor
  · have h := deterministic_timestamp_formula.1 envDet rFrame3 rfl
    rw [h]
    decide
  · exact deterministic_timestamp_formula.2.2 envDet envDetWall rFrame3 rFrame3
      rfl rfl rfl rfl

/-! ## Decimal value of padded timestamps

To reason about zero-padded decimal strings (`fmt06`) the numeric value of a
digit string is recovered by `readDigits`; `fmt06` round-trips through it. -/

def readDigits (cs : List Char) : Nat :=
  cs.foldl (fun a c => 10 * a + (c.toNat - 48)) 0

lemma hexDigit_toNat_lt10 : ∀ k, k < 10 → (hexDigit k).toNat = 48 + k := by
  decide

lemma readDigits_append_digit (cs : List Char) (c : Char) :
    readDigits (cs ++ [c]) = 10 * readDigits cs + (c.toNat - 48) := by
  simp [readDigits, List.foldl_append]

lemma readDigits_decDigitsAux :
    ∀ fuel n, n ≤ fuel → readDigits (decDigitsAux fuel n) = n := by
  intro fuel
  induction fuel with
  | zero =>
    intro n h
    have hn : n = 0 := Nat.le_zero.mp h
    subst hn
    rfl
  | succ f ih =>
    intro n h
    cases n with
    | zero => rfl
    | succ m =>
      have hstep : decDigitsAux (f + 1) (m + 1) =
          decDigitsAux f ((m + 1) / 10) ++ [hexDigit ((m + 1) % 10)] := rfl
      rw [hstep, readDigits_append_digit]
      have hdiv : (m + 1) / 10 ≤ f := by
        have := Nat.div_lt_self (Nat.succ_pos m) (by norm_num : 1 < 10)
        omega
      rw [ih _ hdiv, hexDigit_toNat_lt10 _ (Nat.mod_lt _ (by norm_num))]
      omega

lemma readDigits_replicate_zero :
    ∀ k (cs : List Char), readDigits (List.replicate k '0' ++ cs) =
      readDigits cs := by
  intro k
  induction k with
  | zero => intro cs; rfl
  | succ j ih =>
    intro cs
    have h1 : List.replicate (j + 1) '0' ++ cs =
        '0' :: (List.replicate j '0' ++ cs) := by
      simp [List.replicate_succ]
    rw [h1]
    have h2 : readDigits ('0' :: (List.replicate j '0' ++ cs)) =
        readDigits (List.replicate j '0' ++ cs) := rfl
    rw [h2, ih]

/-- Numeric value carried by a timestamp string: the decimal value of
everything after the leading `T`. -/
def tsVal (s : String) : Nat := readDigits (s.data.drop 1)

lemma readDigits_fmt06 (m : Nat) : readDigits (fmt06 m).data = m := by
  by_cases hm : m = 0
  · subst hm
    decide
  · have hdec : (decStr m).data = decDigitsAux m m := by
      simp [decStr, hm]
    have hval : readDigits (decStr m).data = m := by
      rw [hdec]
      exact readDigits_decDigitsAux m m (Nat.le_refl m)
    have hunfold : fmt06 m =
        if (decStr m).length < 6 then
          String.mk (List.replicate (6 - (decStr m).length) '0') ++ decStr m
        else decStr m := rfl
    rw [hunfold]
    by_cases hlen : (decStr m).length < 6
    · rw [if_pos hlen, String.data_append]
      have hmk : (String.mk
          (List.replicate (6 - (decStr m).length) '0')).data =
          List.replicate (6 - (decStr m).length) '0' := rfl
      rw [hmk, readDigits_replicate_zero]
      exact hval
    · rw [if_neg hlen]
      exact hval

lemma tsVal_T_fmt06 (m : Nat) : tsVal ("T" ++ fmt06 m) = m := by
  unfold tsVal
  rw [String.data_append]
  have hT : ("T" : String).data = ['T'] := rfl
  rw [hT]
  exact readDigits_fmt06 m

lemma tstamp_ne_T000000 (m : Nat) (hm : 0 < m) :
    ("T" ++ fmt06 m) ≠ "T000000" := by
  intro h
  have h1 := tsVal_T_fmt06 m
  rw [h] at h1
  have h2 : tsVal "T000000" = 0 := by decide
  omega

lemma fold_record_output_events_mem (env : EnvCfg)
    (hdet : env.deterministic = true) :
    ∀ (chunks : List (List Nat)) (r : SessionRecorder) (e : Event),
      e ∈ (chunks.foldl (fun r c => SessionRecorder.record_output env r c)
          r).events →
      e ∈ r.events ∨ ∃ k : Nat, 0 < k ∧ e.type = "frame" ∧
        e.timestamp = "T" ++ fmt06 (k * env.step_ms) := by
  intro chunks
  induction chunks with
  | nil => intro r e he; exact Or.inl he
  | cons c cs ih =>
    intro r e he
    rw [List.foldl_cons] at he
    rcases ih (SessionRecorder.record_output env r c) e he with hmem | hk
    · rw [record_output_events] at hmem
      rcases List.mem_append.mp hmem with h1 | h2
      · exact Or.inl h1
      · right
        have he2 : e = mkEvent env
            { r with output_chunks := r.output_chunks ++ [c],
                     total_ws_out := r.total_ws_out + c.length,
                     checksum_chain := sha256_hex
                       (utf8Encode (r.checksum_chain ++ sha256_hex c)),
                     frame_idx := r.frame_idx + 1 }
            "frame" _ := List.mem_singleton.mp h2
        refine ⟨r.frame_idx + 1, Nat.succ_pos _, ?_, ?_⟩
        · rw [he2]; rfl
        · rw [he2]
          simp [mkEvent, SessionRecorder.tstamp, hdet]
    · exact Or.inr hk

/-- **C9 (amended).** Because `record_output` increments the frame index
before emitting its frame event, the frame event for the N-th received chunk
carries `frame_idx = N` and, in deterministic mode, the timestamp `T` followed
by `N * step_ms` zero-padded to 6 digits; hence, provided the configured step
is positive, no frame event carries the timestamp `T000000`, and every event
emitted between chunks carries the timestamp derived from the number of
chunks recorded so far. -/
theorem frame_event_index_and_timestamp (env : EnvCfg)
    (hdet : env.deterministic = true) :
    (∀ r d, ∃ e, (SessionRecorder.record_output env r d).events =
        r.events ++ [e] ∧ e.type = "frame" ∧
        ("frame_idx", Val.int (r.frame_idx + 1)) ∈ e.data ∧
        e.timestamp = "T" ++ fmt06 ((r.frame_idx + 1) * env.step_ms)) ∧
    (∀ r t fs, r.frame_idx = r.output_chunks.length →
        (SessionRecorder.emit env r t fs).events =
          r.events ++ [mkEvent env r t fs] ∧
        (mkEvent env r t fs).timestamp =
          "T" ++ fmt06 (r.output_chunks.length * env.step_ms)) ∧
    (0 < env.step_ms → ∀ (rid sn : String) (chunks : List (List Nat))
        (e : Event),
        e ∈ (chunks.foldl (fun r c => SessionRecorder.record_output env r c)
            (SessionRecorder.init rid sn)).events →
        e.type = "frame" → e.timestamp ≠ "T000000") := by
  refine ⟨?_, ?_, ?_⟩
  · intro r d
    refine ⟨_, record_output_events env r d, rfl, ?_, ?_⟩
    · simp
    · simp [mkEvent, SessionRecorder.tstamp, hdet]
  · intro r t fs hf
    refine ⟨rfl, ?_⟩
    simp [mkEvent, SessionRecorder.tstamp, hdet, hf]
  · intro hpos rid sn chunks e he _
    rcases fold_record_output_events_mem env hdet chunks _ e he with h0 | hk
    · simp at h0
    · obtain ⟨k, hkpos, _, hts⟩ := hk
      rw [hts]
      exact tstamp_ne_T000000 (k * env.step_ms) (Nat.mul_pos hkpos hpos)

/-- One-chunk run with the zero time step configured. -/
def r9z : SessionRecorder :=
  SessionRecorder.record_output envZeroStep
    (SessionRecorder.init "remote-00000000" "echo") [104]

/-- Counterexample to C9 as stated: with E2E_TIME_STEP_MS configured to 0 in
deterministic mode, the frame event for the first chunk carries the timestamp
`T000000`, contradicting the claim that no frame event ever does. -/
theorem frame_event_T000000_counterexample :
    (r9z.events.getD 0 dummyEvent).type = "frame" ∧
    (r9z.events.getD 0 dummyEvent).timestamp = "T000000" := by
  constructor
  · decide
  · decide

/-- One-chunk run with the default 100 ms time step. -/
def r9 : SessionRecorder :=
  [[104]].foldl (fun r c => SessionRecorder.record_output envDet r c)
    (SessionRecorder.init "remote-00000000" "echo")

/-- Witness for the amended C9 at a concrete run: under the default positive
step the single frame event's timestamp is not `T000000`, and an event emitted
on a fresh recorder carries the timestamp for zero recorded chunks. -/
theorem frame_event_index_and_timestamp_witness :
    (r9.events.getD 0 dummyEvent).timestamp ≠ "T000000" ∧
    (mkEvent envDet (SessionRecorder.init "remote-00000000" "echo") "input"
        []).timestamp = "T" ++ fmt06 (0 * envDet.step_ms) := by
  constructor
  · exact (frame_event_index_and_timestamp envDet rfl).2.2 (by decide)
      "remote-00000000" "echo" [[104]] _ (by decide) (by decide)
  · have h := ((frame_event_index_and_timestamp envDet rfl).2.1
      (SessionRecorder.init "remote-00000000" "echo") "input" [] rfl).2
    simpa using h

/-! ## Step payload decoding

Models `_decode_step_data` (ws_client.py lines 286-294) together with the
standard-library decoders it calls: `bytes.fromhex` and `base64.b64decode`. -/

/-- Value of one hex digit, as accepted by Python `bytes.fromhex`. -/
def hexVal (c : Char) : Option Nat :=
  if '0' ≤ c ∧ c ≤ '9' then some (c.toNat - 48)
  else if 'a' ≤ c ∧ c ≤ 'f' then some (c.toNat - 87)
  else if 'A' ≤ c ∧ c ≤ 'F' then some (c.toNat - 55)
  else none

def hexPairs : List Char → Option (List Nat)
  | [] => some []
  | _ :: [] => none
  | c1 :: c2 :: rest =>
    match hexVal c1, hexVal c2, hexPairs rest with
    | some hi, some lo, some tail => some ((hi * 16 + lo) :: tail)
    | _, _, _ => none

/-- Model of `bytes.fromhex`: spaces are skipped, then pairs of hex digits
form bytes; anything else raises `ValueError` (here `none`). -/
def bytes_fromhex (s : String) : Option (List Nat) :=
  hexPairs (s.data.filter (fun c => c != ' '))

/-- Value of one base64 alphabet character. -/
def b64Val (c : Char) : Option Nat :=
  if 'A' ≤ c ∧ c ≤ 'Z' then some (c.toNat - 65)
  else if 'a' ≤ c ∧ c ≤ 'z' then some (c.toNat - 71)
  else if '0' ≤ c ∧ c ≤ '9' then some (c.toNat + 4)
  else if c = '+' then some 62
  else if c = '/' then some 63
  else none

def b64Chunks : List Char → Option (List Nat)
  | [] => some []
  | c1 :: c2 :: c3 :: c4 :: rest =>
    match b64Val c1, b64Val c2 with
    | some v1, some v2 =>
      if c3 = '=' then
        if c4 = '=' ∧ rest = [] then some [v1 * 4 + v2 / 16] else none
      else
        match b64Val c3 with
        | some v3 =>
          if c4 = '=' then
            if rest = [] then
              some [v1 * 4 + v2 / 16, v2 % 16 * 16 + v3 / 4]
            else none
          else
            match b64Val c4, b64Chunks rest with
            | some v4, some tail =>
              some ((v1 * 4 + v2 / 16) :: (v2 % 16 * 16 + v3 / 4) ::
                    (v3 % 4 * 64 + v4) :: tail)
            | _, _ => none
        | none => none
    | _, _ => none
  | _ => none

/-- Model of `base64.b64decode` (default `validate=False`): characters outside
the alphabet and `=` are discarded, then 4-character groups are decoded, with
padding allowed only at the end; bad padding raises (here `none`). -/
def b64decode (s : String) : Option (List Nat) :=
  b64Chunks (s.data.filter (fun c => (b64Val c).isSome || c == '='))

/-- One raw scenario step as parsed from JSON: every key optional, exactly as
a Python dict. -/
structure RawStep where
  type : Option String := none
  data_hex : Option String := none
  data_b64 : Option String := none
  data : Option String := none
  delay_ms : Option Int := none
  cols : Option Int := none
  rows : Option Int := none
  ms : Option Int := none
deriving DecidableEq

/-- Model of `_decode_step_data` (ws_client.py lines 286-294): hex first,
then base64, then UTF-8 text, else empty. -/
def decode_step_data (step : RawStep) : Option (List Nat) :=
  match step.data_hex with
  | some h => bytes_fromhex h
  | none =>
    match step.data_b64 with
    | some b => b64decode b
    | none =>
      match step.data with
      | some t => some (utf8Encode t)
      | none => some []

/-- **C6.** For every Send step the payload is decoded with fixed precedence
hex, then base64, then UTF-8 text; lower-precedence fields are silently
ignored when a higher-precedence one is present, and with no encoding field
the payload is empty. -/
theorem decode_step_precedence :
    (∀ step h, step.data_hex = some h →
      decode_step_data step = bytes_fromhex h) ∧
    (∀ step b, step.data_hex = none → step.data_b64 = some b →
      decode_step_data step = b64decode b) ∧
    (∀ step t, step.data_hex = none → step.data_b64 = none →
      step.data = some t → decode_step_data step = some (utf8Encode t)) ∧
    (∀ step, step.data_hex = none → step.data_b64 = none → step.data = none →
      decode_step_data step = some []) := by
  refine ⟨?_, ?_, ?_, ?_⟩
  · intro step h h1
    simp [decode_step_data, h1]
  · intro step b h1 h2
    simp [decode_step_data, h1, h2]
  · intro step t h1 h2 h3
    simp [decode_step_data, h1, h2, h3]
  · intro step h1 h2 h3
    simp [decode_step_data, h1, h2, h3]

/-- A step carrying all three payload encodings at once. -/
def stepAll : RawStep :=
  { type := some "send", data_hex := some "6c730a",
    data_b64 := some "aGk=", data := some "xyz" }

/-- Witness for C6: with all three encoding fields present, the hex field
wins and decodes to the bytes of `ls\n`; the ignored base64 and text fields
would have produced different payloads. -/
theorem decode_step_precedence_witness :
    decode_step_data stepAll = bytes_fromhex "6c730a" ∧
    decode_step_data stepAll = some [108, 115, 10] ∧
    b64decode "aGk=" = some [104, 105] ∧
    decode_step_data { stepAll with data_hex := none } = b64decode "aGk=" ∧
    decode_step_data { stepAll with data_hex := none, data_b64 := none } =
      some (utf8Encode "xyz") ∧
    decode_step_data
      { stepAll with data_hex := none, data_b64 := none, data := none } =
      some [] := by
  refine ⟨decode_step_precedence.1 stepAll "6c730a" rfl, by decide, by decide,
    decode_step_precedence.2.1 _ "aGk=" rfl rfl,
    decode_step_precedence.2.2.1 _ "xyz" rfl rfl rfl,
    decode_step_precedence.2.2.2 _ rfl rfl rfl⟩

/-! ## The session driver

`run_session` (ws_client.py lines 157-273) runs a stepper loop concurrently
with a background read loop over one connection. The event loop serializes
the two activities; that serialization is modelled as an explicit `Schedule`:
a list of atomic actions (a frame delivered to the read loop, the stepper
executing its next scenario step, or an exception surfacing in the driver),
plus an optional connect-time failure. When the action list ends, any
remaining steps run without further deliveries; an exception action aborts
the try-block exactly as a raised exception does. -/

/-- A WebSocket message: the read loop records binary frames and ignores
text frames (`isinstance(message, bytes)`). -/
inductive Msg where
  | binary (data : List Nat)
  | text (s : String)
deriving DecidableEq

/-- One serialized turn of the event loop inside the connection block. -/
inductive Action where
  | deliver (m : Msg)
  | runStep
  | raiseExc (msg : String)
deriving DecidableEq

/-- An execution schedule for one `run_session` call. -/
structure Schedule where
  connect_error : Option String := none
  actions : List Action := []
deriving DecidableEq

/-- Raw scenario as parsed from JSON: every key optional, as a Python dict. -/
structure RawScenario where
  name : Option String := none
  description : Option String := none
  initial_cols : Option Int := none
  initial_rows : Option Int := none
  steps : Option (List RawStep) := none
  timeout_s : Option Int := none
deriving DecidableEq

/-- Parsed golden record file (`{checksum_chain, frames, ...}`). -/
structure Golden where
  checksum_chain : Option String := none
  frames : Option Int := none
deriving DecidableEq

/-- The result dict built by `run_session`: outcome and errors, updated with
the summary fields (`result.update(summary)`). -/
structure RunResult where
  outcome : String
  errors : List String
  scenario : String
  ws_in_bytes : Nat
  ws_out_bytes : Nat
  frames : Nat
  output_sha256 : String
  checksum_chain : String
deriving DecidableEq

/-- Model of one iteration of the step loop (ws_client.py lines 188-222):
`step["type"]` raises a KeyError when the key is absent; a `send` step
decodes its payload (decode errors raise), transmits, records and emits an
`input` event; a `resize` step reads `cols`/`rows` (raising when absent) and
emits a `resize` event; `wait` and `drain` only sleep; an unrecognized type
value matches no branch and is silently skipped. -/
def execStep (env : EnvCfg) (i : Nat) (step : RawStep) (r : SessionRecorder) :
    Except String SessionRecorder :=
  match step.type with
  | none => .error "KeyError: 'type'"
  | some t =>
    if t = "send" then
      match decode_step_data step with
      | none => .error "ValueError: invalid payload encoding"
      | some data =>
        let r1 := r.record_send data
        .ok (r1.emit env "input"
          [("step", .int i), ("bytes", .int data.length),
           ("input_hash", .str ("sha256:" ++ strTake (sha256_hex data) 16))])
    else if t = "resize" then
      match step.cols with
      | none => .error "KeyError: 'cols'"
      | some c =>
        match step.rows with
        | none => .error "KeyError: 'rows'"
        | some w =>
          .ok (r.emit env "resize"
            [("step", .int i), ("cols", .int c), ("rows", .int w)])
    else
      .ok r

/-- Steps remaining after the schedule's actions are exhausted execute in
order with no interleaved deliveries. -/
def runRemaining (env : EnvCfg) :
    Nat → List RawStep → SessionRecorder → SessionRecorder × Option String
  | _, [], r => (r, none)
  | i, s :: ss, r =>
    match execStep env i s r with
    | .ok r1 => runRemaining env (i + 1) ss r1
    | .error msg => (r, some msg)

/-- Interpreter for the connection block: deliveries feed `record_output`
(binary only), `runStep` executes the next scenario step, and a raised
exception aborts with the recorder exactly as it stood. -/
def runTryGo (env : EnvCfg) :
    List Action → Nat → List RawStep → SessionRecorder →
    SessionRecorder × Option String
  | [], i, steps, r => runRemaining env i steps r
  | .deliver (.binary b) :: rest, i, steps, r =>
    runTryGo env rest i steps (r.record_output env b)
  | .deliver (.text _) :: rest, i, steps, r => runTryGo env rest i steps r
  | .raiseExc msg :: _, _, _, r => (r, some msg)
  | .runStep :: rest, i, steps, r =>
    match steps with
    | [] => runTryGo env rest i [] r
    | s :: ss =>
      match execStep env i s r with
      | .ok r1 => runTryGo env rest (i + 1) ss r1
      | .error msg => (r, some msg)

/-- Model of the whole `try` block (ws_client.py lines 178-231): a failed
connect raises before the read loop starts; otherwise the scheduled actions
interleave the read loop with the stepper. Returns the recorder state at the
end of the block and the raised exception's message, if any. -/
def runTry (env : EnvCfg) (steps : List RawStep) (sched : Schedule)
    (r : SessionRecorder) : SessionRecorder × Option String :=
  match sched.connect_error with
  | some msg => (r, some msg)
  | none => runTryGo env sched.actions 0 steps r

/-- Model of the `env` and `run_start` emissions at the top of `run_session`
(ws_client.py lines 163-174). -/
def prologue (env : EnvCfg) (scenario : RawScenario) (n : String)
    (r0 : SessionRecorder) : SessionRecorder :=
  (r0.emit env "env"
    [("git_commit", .str env.git_commit), ("git_dirty", .bool false),
     ("scenario", .str n),
     ("initial_cols", .int (scenario.initial_cols.getD 120)),
     ("initial_rows", .int (scenario.initial_rows.getD 40))]).emit env
    "run_start"
    [("scenario", .str n),
     ("step_count", .int (scenario.steps.getD []).length),
     ("timeout_s", .int (scenario.timeout_s.getD 30))]

/-- Model of the golden-transcript comparison (ws_client.py lines 242-262),
in the state where a golden path was supplied and the file exists and parsed
to `g`; `none` models an absent path or file. -/
def goldenCheck (env : EnvCfg) (golden : Option Golden) (summary : Summary)
    (result : RunResult) (r : SessionRecorder) :
    RunResult × SessionRecorder :=
  match golden with
  | none => (result, r)
  | some g =>
    let expected := g.checksum_chain.getD ""
    if expected ≠ "" ∧ expected ≠ summary.checksum_chain then
      ({ result with
          outcome := "fail",
          errors := result.errors ++
            ["Golden checksum mismatch: expected " ++ expected ++ ", got " ++
             summary.checksum_chain] },
        r.emit env "golden_mismatch"
          [("expected", .str expected),
           ("actual", .str summary.checksum_chain),
           ("frames_expected", .int (g.frames.getD (-1))),
           ("frames_actual", .int summary.frames)])
    else
      (result, r.emit env "golden_match"
        [("checksum", .str summary.checksum_chain),
         ("frames", .int summary.frames)])

/-- Body of `run_session` after the scenario name has been read: the
try/except, the summary, the golden comparison and the `run_end` event
(ws_client.py lines 176-273). -/
def sessionBody (env : EnvCfg) (scenario : RawScenario) (n : String)
    (r0 : SessionRecorder) (golden : Option Golden) (sched : Schedule) :
    RunResult × SessionRecorder :=
  let tr := runTry env (scenario.steps.getD []) sched
    (prologue env scenario n r0)
  let r3 := match tr.2 with
    | none => tr.1
    | some msg => SessionRecorder.emit env tr.1 "error"
        [("message", .str msg)]
  let summary := r3.summary
  let result1 : RunResult :=
    { outcome := match tr.2 with | none => "pass" | some _ => "fail",
      errors := match tr.2 with | none => [] | some msg => [msg],
      scenario := summary.scenario,
      ws_in_bytes := summary.ws_in_bytes,
      ws_out_bytes := summary.ws_out_bytes,
      frames := summary.frames,
      output_sha256 := summary.output_sha256,
      checksum_chain := summary.checksum_chain }
  let gc := goldenCheck env golden summary result1 r3
  (gc.1, gc.2.emit env "run_end"
    [("outcome", .str gc.1.outcome),
     ("ws_in_bytes", .int summary.ws_in_bytes),
     ("ws_out_bytes", .int summary.ws_out_bytes),
     ("frames", .int summary.frames),
     ("output_sha256", .str summary.output_sha256),
     ("checksum_chain", .str summary.checksum_chain)])

/-- Model of `run_session` (ws_client.py lines 157-273). Reading
`scenario["name"]` (line 166) raises an uncaught KeyError when absent. -/
def run_session (env : EnvCfg) (scenario : RawScenario)
    (r0 : SessionRecorder) (golden : Option Golden) (sched : Schedule) :
    Except String (RunResult × SessionRecorder) :=
  match scenario.name with
  | none => .error "KeyError: 'name'"
  | some n => .ok (sessionBody env scenario n r0 golden sched)

/-- Model of the part of `main` between parsing the scenario file and the
connection attempt (ws_client.py lines 313-318): the only scenario field it
touches is `scenario["name"]`, whose absence raises a KeyError before any
connection is made. -/
def mainPreflight (env : EnvCfg) (scenario : RawScenario) :
    Except String SessionRecorder :=
  match scenario.name with
  | none => .error "KeyError: 'name'"
  | some n => .ok (SessionRecorder.init (make_run_id env) n)

/-- A placeholder result used only as the default of `Except` projections. -/
def dummyResult : RunResult :=
  { outcome := "", errors := [], scenario := "", ws_in_bytes := 0,
    ws_out_bytes := 0, frames := 0, output_sha256 := "", checksum_chain := "" }

/-- The run result of a completed `run_session` call. -/
def resultOf (x : Except String (RunResult × SessionRecorder)) : RunResult :=
  match x with
  | .ok p => p.1
  | .error _ => dummyResult

/-- The final recorder of a completed `run_session` call. -/
def recorderOf (x : Except String (RunResult × SessionRecorder)) :
    SessionRecorder :=
  match x with
  | .ok p => p.2
  | .error _ => SessionRecorder.init "" ""

/-! ## Golden comparison (C2, C10) -/

/-- **C10.** If the golden record exists but its `checksum_chain` field is
missing or empty, no comparison is performed, yet a `golden_match` event is
still emitted carrying the run's own chain and frame count, and the result
(hence the outcome) is not downgraded. -/
theorem golden_empty_chain_matches (env : EnvCfg) (g : Golden)
    (summary : Summary) (result : RunResult) (r : SessionRecorder)
    (h : g.checksum_chain = none ∨ g.checksum_chain = some "") :
    goldenCheck env (some g) summary result r =
      (result, r.emit env "golden_match"
        [("checksum", .str summary.checksum_chain),
         ("frames", .int summary.frames)]) := by
  rcases h with h | h <;> simp [goldenCheck, h]

/-- A two-byte one-chunk run used as a concrete fixture. -/
def rW : SessionRecorder :=
  SessionRecorder.record_output envDet
    (SessionRecorder.init "remote-00000000" "echo") [104, 105]

/-- A base result in the passing state. -/
def resW : RunResult :=
  { outcome := "pass", errors := [], scenario := "echo", ws_in_bytes := 0,
    ws_out_bytes := 2, frames := 1, output_sha256 := "", checksum_chain := "" }

/-- A golden record whose chain field is the empty string. -/
def gEmpty : Golden := { checksum_chain := some "", frames := some 5 }

/-- Witness for C10: an empty golden chain yields a `golden_match` event and
an unchanged result even though the stored chain differs from the run's. -/
theorem golden_empty_chain_matches_witness :
    goldenCheck envDet (some gEmpty) rW.summary resW rW =
      (resW, rW.emit envDet "golden_match"
        [("checksum", .str rW.summary.checksum_chain),
         ("frames", .int rW.summary.frames)]) ∧
    gEmpty.checksum_chain.getD "" ≠ rW.summary.checksum_chain :=
  ⟨golden_empty_chain_matches envDet gEmpty rW.summary resW rW (Or.inr rfl),
   by decide⟩

/-- An empty scenario whose run receives one two-byte chunk. -/
def scen2 : RawScenario := { name := some "echo", steps := some [] }

def sched2 : Schedule := { actions := [.deliver (.binary [104, 105])] }

/-- A golden record storing an empty chain and a wrong frame count. -/
def g2 : Golden := { checksum_chain := some "", frames := some 7 }

def run2 : Except String (RunResult × SessionRecorder) :=
  run_session envDet scen2 (SessionRecorder.init "remote-00000000" "echo")
    (some g2) sched2

/-- Counterexample to C2 as stated: with a golden record whose stored chain
is the empty string, the stored chain is not string-equal to the run's final
chain, yet no `golden_mismatch` is emitted, a `golden_match` is emitted, and
the outcome stays `pass` — refuting the claimed "if and only if". -/
theorem golden_mismatch_iff_counterexample :
    (resultOf run2).outcome = "pass" ∧
    g2.checksum_chain.getD "" ≠ (resultOf run2).checksum_chain ∧
    (recorderOf run2).events.filter
      (fun e => e.type == "golden_mismatch") = [] ∧
    ((recorderOf run2).events.filter
      (fun e => e.type == "golden_match")).length = 1 := by
  refine ⟨by decide, by decide, by decide, by decide⟩

/-- **C2 (amended).** When a golden record is present, the result is
downgraded to `fail` and a `golden_mismatch` event carrying both chains and
both frame counts is emitted if and only if the golden chain is non-empty and
not string-equal to the run's final full chain; otherwise (exact equality, or
a missing/empty golden chain) a `golden_match` event is emitted and the
result is unchanged; and the golden frame count never affects the result. -/
theorem golden_comparison_behavior (env : EnvCfg) (g : Golden)
    (summary : Summary) (result : RunResult) (r : SessionRecorder) :
    (g.checksum_chain.getD "" ≠ "" ∧
     g.checksum_chain.getD "" ≠ summary.checksum_chain →
      goldenCheck env (some g) summary result r =
        ({ result with
            outcome := "fail",
            errors := result.errors ++
              ["Golden checksum mismatch: expected " ++
               g.checksum_chain.getD "" ++ ", got " ++
               summary.checksum_chain] },
         r.emit env "golden_mismatch"
           [("expected", .str (g.checksum_chain.getD "")),
            ("actual", .str summary.checksum_chain),
            ("frames_expected", .int (g.frames.getD (-1))),
            ("frames_actual", .int summary.frames)])) ∧
    (g.checksum_chain.getD "" = "" ∨
     g.checksum_chain.getD "" = summary.checksum_chain →
      goldenCheck env (some g) summary result r =
        (result, r.emit env "golden_match"
          [("checksum", .str summary.checksum_chain),
           ("frames", .int summary.frames)])) ∧
    (∀ f1 f2 : Option Int,
      (goldenCheck env (some { g with frames := f1 }) summary result r).1 =
      (goldenCheck env (some { g with frames := f2 }) summary result r).1) := by
  refine ⟨?_, ?_, ?_⟩
  · intro h
    simp [goldenCheck, h.1, h.2]
  · intro h
    rcases h with h | h <;> simp [goldenCheck, h]
  · intro f1 f2
    by_cases hcond : g.checksum_chain.getD "" ≠ "" ∧
        g.checksum_chain.getD "" ≠ summary.checksum_chain
    · simp [goldenCheck, hcond.1, hcond.2]
    · simp only [goldenCheck]
      rw [if_neg ?hc1, if_neg ?hc2]
      case hc1 => simpa using hcond
      case hc2 => simpa using hcond

/-- A golden record equal to the fixture run's chain. -/
def gEq : Golden :=
  { checksum_chain := some rW.summary.checksum_chain, frames := some 1 }

/-- A golden record with a non-empty chain different from the fixture's. -/
def gMis : Golden := { checksum_chain := some "sha256:deadbeef", frames := some 1 }

/-- Witness for the amended C2: a non-empty differing golden chain downgrades
the result to `fail`, while an equal chain leaves the result unchanged. -/
theorem golden_comparison_behavior_witness :
    (goldenCheck envDet (some gMis) rW.summary resW rW).1.outcome = "fail" ∧
    (goldenCheck envDet (some gEq) rW.summary resW rW).1 = resW := by
  constructor
  · rw [(golden_comparison_behavior envDet gMis rW.summary resW rW).1
      ⟨by decide, by decide⟩]
  · rw [(golden_comparison_behavior envDet gEq rW.summary resW rW).2.1
      (Or.inr (by decide))]

/-! ## Partial-failure preservation (C3) -/

/-- The recorder invariant tying the frame index to the recorded chunks. -/
def FrameCount (r : SessionRecorder) : Prop :=
  r.frame_idx = r.output_chunks.length

lemma execStep_framecount (env : EnvCfg) (i : Nat) (s : RawStep)
    (r r1 : SessionRecorder) (h : execStep env i s r = .ok r1) :
    FrameCount r → FrameCount r1 := by
  intro hfc
  rcases hs : s.type with _ | t
  · simp only [execStep, hs] at h
    exact Except.noConfusion h
  · simp only [execStep, hs] at h
    by_cases ht : t = "send"
    · rw [if_pos ht] at h
      rcases hd : decode_step_data s with _ | data
      · rw [hd] at h
        exact Except.noConfusion h
      · rw [hd] at h
        injection h with h1
        subst h1
        simpa [FrameCount] using hfc
    · rw [if_neg ht] at h
      by_cases hr : t = "resize"
      · rw [if_pos hr] at h
        rcases hc : s.cols with _ | c
        · rw [hc] at h
          exact Except.noConfusion h
        · rw [hc] at h
          rcases hw : s.rows with _ | w
          · rw [hw] at h
            exact Except.noConfusion h
          · rw [hw] at h
            injection h with h1
            subst h1
            simpa [FrameCount] using hfc
      · rw [if_neg hr] at h
        injection h with h1
        subst h1
        exact hfc

lemma runRemaining_framecount (env : EnvCfg) :
    ∀ (steps : List RawStep) (i : Nat) (r : SessionRecorder),
      FrameCount r → FrameCount (runRemaining env i steps r).1 := by
  intro steps
  induction steps with
  | nil => intro i r hfc; exact hfc
  | cons s ss ih =>
    intro i r hfc
    rw [runRemaining]
    cases he : execStep env i s r with
    | error msg => exact hfc
    | ok r1 => exact ih (i + 1) r1 (execStep_framecount env i s r r1 he hfc)

lemma runTryGo_framecount (env : EnvCfg) :
    ∀ (actions : List Action) (i : Nat) (steps : List RawStep)
      (r : SessionRecorder),
      FrameCount r → FrameCount (runTryGo env actions i steps r).1 := by
  intro actions
  induction actions with
  | nil => intro i steps r hfc; exact runRemaining_framecount env steps i r hfc
  | cons a rest ih =>
    intro i steps r hfc
    cases a with
    | deliver m =>
      cases m with
      | binary b =>
        exact ih i steps (r.record_output env b)
          (by simpa [FrameCount] using hfc)
      | text s => exact ih i steps r hfc
    | runStep =>
      cases steps with
      | nil => exact ih i [] r hfc
      | cons s ss =>
        have hgo : runTryGo env (Action.runStep :: rest) i (s :: ss) r =
            match execStep env i s r with
            | .ok r1 => runTryGo env rest (i + 1) ss r1
            | .error msg => (r, some msg) := rfl
        cases he : execStep env i s r with
        | error msg =>
          rw [hgo, he]
          exact hfc
        | ok r1 =>
          rw [hgo, he]
          exact ih (i + 1) ss r1 (execStep_framecount env i s r r1 he hfc)
    | raiseExc msg => exact hfc

lemma runTry_framecount (env : EnvCfg) (steps : List RawStep)
    (sched : Schedule) (r : SessionRecorder) :
    FrameCount r → FrameCount (runTry env steps sched r).1 := by
  intro hfc
  rw [runTry]
  cases hc : sched.connect_error with
  | none => exact runTryGo_framecount env sched.actions 0 steps r hfc
  | some msg => exact hfc

lemma prologue_framecount (env : EnvCfg) (scenario : RawScenario) (n : String)
    (r0 : SessionRecorder) :
    FrameCount r0 → FrameCount (prologue env scenario n r0) := by
  intro hfc
  simpa [FrameCount, prologue] using hfc

/-- **C3.** If an exception is raised during connection or step execution,
the run's outcome is `fail`, the error message is the sole entry of the
errors list and is recorded as an `error` event, and the produced summary
fields reflect exactly the recorder state at the moment of failure — in
particular, the reported frame count is the number of chunks captured before
the failure. -/
theorem exception_preserves_partial_results (env : EnvCfg)
    (scenario : RawScenario) (r0 : SessionRecorder) (sched : Schedule)
    (n : String) (r' : SessionRecorder) (msg : String)
    (hname : scenario.name = some n)
    (htry : runTry env (scenario.steps.getD []) sched
        (prologue env scenario n r0) = (r', some msg)) :
    (resultOf (run_session env scenario r0 none sched)).outcome = "fail" ∧
    (resultOf (run_session env scenario r0 none sched)).errors = [msg] ∧
    (resultOf (run_session env scenario r0 none sched)).frames =
      r'.frame_idx ∧
    (resultOf (run_session env scenario r0 none sched)).ws_out_bytes =
      r'.total_ws_out ∧
    (resultOf (run_session env scenario r0 none sched)).ws_in_bytes =
      r'.total_ws_in ∧
    (resultOf (run_session env scenario r0 none sched)).output_sha256 =
      "sha256:" ++ sha256_hex r'.output_chunks.flatten ∧
    (resultOf (run_session env scenario r0 none sched)).checksum_chain =
      "sha256:" ++ r'.checksum_chain ∧
    mkEvent env r' "error" [("message", Val.str msg)] ∈
      (recorderOf (run_session env scenario r0 none sched)).events ∧
    (FrameCount r0 →
      (resultOf (run_session env scenario r0 none sched)).frames =
        r'.output_chunks.length) := by
  have hrun : run_session env scenario r0 none sched =
      .ok (sessionBody env scenario n r0 none sched) := by
    rw [run_session, hname]
  have hframes : FrameCount r0 → r'.frame_idx = r'.output_chunks.length := by
    intro hfc
    have h := runTry_framecount env (scenario.steps.getD []) sched
      (prologue env scenario n r0)
      (prologue_framecount env scenario n r0 hfc)
    rw [htry] at h
    exact h
  have h1 : (resultOf (run_session env scenario r0 none sched)).outcome =
      "fail" := by
    rw [hrun]
    simp [resultOf, sessionBody, htry, goldenCheck]
  have h2 : (resultOf (run_session env scenario r0 none sched)).errors =
      [msg] := by
    rw [hrun]
    simp [resultOf, sessionBody, htry, goldenCheck]
  have h3 : (resultOf (run_session env scenario r0 none sched)).frames =
      r'.frame_idx := by
    rw [hrun]
    simp [resultOf, sessionBody, htry, goldenCheck, SessionRecorder.summary]
  have h4 : (resultOf (run_session env scenario r0 none sched)).ws_out_bytes =
      r'.total_ws_out := by
    rw [hrun]
    simp [resultOf, sessionBody, htry, goldenCheck, SessionRecorder.summary]
  have h5 : (resultOf (run_session env scenario r0 none sched)).ws_in_bytes =
      r'.total_ws_in := by
    rw [hrun]
    simp [resultOf, sessionBody, htry, goldenCheck, SessionRecorder.summary]
  have h6 : (resultOf (run_session env scenario r0 none sched)).output_sha256 =
      "sha256:" ++ sha256_hex r'.output_chunks.flatten := by
    rw [hrun]
    simp [resultOf, sessionBody, htry, goldenCheck, SessionRecorder.summary,
      SessionRecorder.full_output]
  have h7 : (resultOf (run_session env scenario r0 none sched)).checksum_chain =
      "sha256:" ++ r'.checksum_chain := by
    rw [hrun]
    simp [resultOf, sessionBody, htry, goldenCheck, SessionRecorder.summary]
  have h8 : mkEvent env r' "error" [("message", Val.str msg)] ∈
      (recorderOf (run_session env scenario r0 none sched)).events := by
    rw [hrun]
    simp [recorderOf, sessionBody, htry, goldenCheck, SessionRecorder.emit]
  exact ⟨h1, h2, h3, h4, h5, h6, h7, h8, fun hfc => by
    rw [h3]; exact hframes hfc⟩

/-- A send step carrying `ls\n` as hex. -/
def sendStep : RawStep := { type := some "send", data_hex := some "6c730a" }

/-- A five-step scenario used for the partial-failure fixture. -/
def scen3 : RawScenario :=
  { name := some "partial",
    steps := some [sendStep, sendStep, sendStep, sendStep, sendStep] }

def connMsg : String := "ConnectionClosedError: no close frame received or sent"

/-- Two frames arrive, one step runs, then the connection drops. -/
def sched3 : Schedule :=
  { actions := [.deliver (.binary [104]), .runStep, .deliver (.binary [105]),
                .raiseExc connMsg] }

def r0w : SessionRecorder := SessionRecorder.init "remote-00000000" "partial"

/-- Recorder state at the moment the fixture connection drops. -/
def tr3fst : SessionRecorder :=
  (runTry envDet (scen3.steps.getD []) sched3
    (prologue envDet scen3 "partial" r0w)).1

def run3 : Except String (RunResult × SessionRecorder) :=
  run_session envDet scen3 r0w none sched3

/-- Witness for C3: the connection fails after 2 of an expected 5 frames;
the run fails with that error and the summary reports exactly 2 frames —
neither zero nor the expected count. -/
theorem exception_preserves_partial_results_witness :
    (resultOf run3).outcome = "fail" ∧
    (resultOf run3).errors = [connMsg] ∧
    (resultOf run3).frames = 2 ∧
    (resultOf run3).frames ≠ 0 ∧
    (scen3.steps.getD []).length = 5 ∧
    (resultOf run3).frames ≠ (scen3.steps.getD []).length := by
  obtain ⟨h1, h2, h3, _, _, _, _, _, _⟩ :=
    exception_preserves_partial_results envDet scen3 r0w sched3 "partial"
      tr3fst connMsg rfl (by rfl)
  have hfr : tr3fst.frame_idx = 2 := by decide
  simp only [run3]
  refine ⟨h1, h2, ?_, ?_, by decide, ?_⟩
  · rw [h3, hfr]
  · rw [h3, hfr]
    decide
  · rw [h3, hfr]
    decide

/-! ## Scenario loading (C4) -/

/-- A step dict with no `type` key. -/
def stepNoType : RawStep := {}

/-- A step whose type value matches no recognized kind. -/
def stepBogus : RawStep := { type := some "frobnicate" }

/-- A scenario with non-positive geometry and an unrecognized step type. -/
def scen4 : RawScenario :=
  { name := some "x", initial_cols := some (-5), initial_rows := some 0,
    steps := some [stepBogus] }

/-- A scenario dict with no `name` key. -/
def scenNoName : RawScenario := {}

def schedEmpty : Schedule := {}

def run4 : Except String (RunResult × SessionRecorder) :=
  run_session envDet scen4 (SessionRecorder.init "remote-00000000" "x") none
    { actions := [.runStep] }

/-- Counterexample to C4 as stated: a scenario with non-positive
`initial_cols`/`initial_rows` and a step with an unrecognized type loads
without any MalformedScenario error, and its run completes with outcome
`pass` and no errors. -/
theorem scenario_no_validation_counterexample :
    scen4.initial_cols = some (-5) ∧
    scen4.initial_rows = some 0 ∧
    scen4.steps = some [stepBogus] ∧
    mainPreflight envDet scen4 =
      .ok (SessionRecorder.init (make_run_id envDet) "x") ∧
    (resultOf run4).outcome = "pass" ∧
    (resultOf run4).errors = [] := by
  refine ⟨rfl, rfl, rfl, rfl, by decide, by decide⟩

/-- **C4 (amended).** Scenario loading validates only the presence of
`name`: a missing name raises a KeyError before any connection attempt (both
in `main` and at the top of `run_session`); non-positive geometry is accepted
unchecked; a step whose type value is unrecognized is silently skipped; and a
step missing the `type` key raises a KeyError only during step execution,
after the connection attempt. -/
theorem scenario_loading_only_checks_name :
    (∀ (env : EnvCfg) (sc : RawScenario) (n : String), sc.name = some n →
      mainPreflight env sc = .ok (SessionRecorder.init (make_run_id env) n)) ∧
    (∀ (env : EnvCfg) (sc : RawScenario), sc.name = none →
      mainPreflight env sc = .error "KeyError: 'name'") ∧
    (∀ (env : EnvCfg) (sc : RawScenario) (r0 : SessionRecorder)
      (golden : Option Golden) (sched : Schedule), sc.name = none →
      run_session env sc r0 golden sched = .error "KeyError: 'name'") ∧
    (∀ (env : EnvCfg) (i : Nat) (s : RawStep) (r : SessionRecorder),
      s.type = none → execStep env i s r = .error "KeyError: 'type'") ∧
    (∀ (env : EnvCfg) (i : Nat) (s : RawStep) (r : SessionRecorder)
      (t : String), s.type = some t → t ≠ "send" → t ≠ "resize" →
      execStep env i s r = .ok r) := by
  refine ⟨?_, ?_, ?_, ?_, ?_⟩
  · intro env sc n h
    simp [mainPreflight, h]
  · intro env sc h
    simp [mainPreflight, h]
  · intro env sc r0 golden sched h
    simp [run_session, h]
  · intro env i s r h
    simp [execStep, h]
  · intro env i s r t h h1 h2
    simp [execStep, h, h1, h2]

/-- Witness for the amended C4 at concrete inputs: loading succeeds for the
invalid-geometry scenario, fails only for the missing name, an unrecognized
step is a no-op, and a step without `type` raises during execution. -/
theorem scenario_loading_only_checks_name_witness :
    mainPreflight envDet scen4 =
      .ok (SessionRecorder.init (make_run_id envDet) "x") ∧
    mainPreflight envDet scenNoName = .error "KeyError: 'name'" ∧
    run_session envDet scenNoName r0w none schedEmpty =
      .error "KeyError: 'name'" ∧
    execStep envDet 0 stepNoType r0w = .error "KeyError: 'type'" ∧
    execStep envDet 0 stepBogus r0w = .ok r0w :=
  ⟨scenario_loading_only_checks_name.1 envDet scen4 "x" rfl,
   scenario_loading_only_checks_name.2.1 envDet scenNoName rfl,
   scenario_loading_only_checks_name.2.2.1 envDet scenNoName r0w none
     schedEmpty rfl,
   scenario_loading_only_checks_name.2.2.2.1 envDet 0 stepNoType r0w rfl,
   scenario_loading_only_checks_name.2.2.2.2 envDet 0 stepBogus r0w
     "frobnicate" rfl (by decide) (by decide)⟩

end WsClient
